import Mathlib

/-!
A verification development for the connection-lifecycle core of zato
(`zato-server/src/zato/server/connection/__init__.py`).

The Python classes are shallowly embedded as Lean data and functions:

* `BaseConnection.start` (the single-connection supervisor loop) becomes
  `Zato.runStart`, a function over an explicit state record and a finite
  script of attempt outcomes (each script element is one call of `_start`).
* `BaseConnPoolStore` (the named connection store) becomes functions over
  `Zato.StoreState`; its `_create` retry loop takes a finite script of
  `create_session` outcomes.  Pluggable capabilities that the source leaves
  to subclasses (`create_session`, `delete_session`, `_keep_connecting`)
  are parameters of the embedding.
* Wall-clock time is modelled as advancing only inside the retry sleeps, so
  an elapsed-time report is the accumulated `slept` field.
* Raised Python exceptions become explicit result constructors.
-/

namespace Zato

/-! ## Error model and errno constants (Linux values, as used by the source) -/

def ENETUNREACH : Nat := 101
def ENETRESET : Nat := 102
def ECONNABORTED : Nat := 103
def ECONNRESET : Nat := 104
def ETIMEDOUT : Nat := 110
def ECONNREFUSED : Nat := 111
def EHOSTUNREACH : Nat := 113

/-- A Python exception as seen by `BaseConnection.start`: an exception type
identifier (relevant to the `except self.reconnect_exceptions` clause, which
checks `isinstance`) and an `errno` value (relevant to the
`reconnect_error_numbers` set). -/
structure Err where
  etype : Nat
  eno : Nat
deriving DecidableEq, Repr

/-- The tuple `self.reconnect_error_numbers` set in `BaseConnection.__init__`:
`(errno.ENETUNREACH, errno.ENETRESET, errno.ECONNABORTED, errno.ECONNRESET,
errno.ETIMEDOUT, errno.ECONNREFUSED, errno.EHOSTUNREACH)`. -/
def reconnect_error_numbers : List Nat :=
  [ENETUNREACH, ENETRESET, ECONNABORTED, ECONNRESET, ETIMEDOUT, ECONNREFUSED, EHOSTUNREACH]

/-- Parameters of one `BaseConnection` instance.
`caught e` models `isinstance(e, self.reconnect_exceptions)`: whether the
`except self.reconnect_exceptions` clause of `start()` catches `e` at all.
`keepPred e` models the subclass-supplied `_keep_connecting(e)` predicate
(`NotImplementedError` in the base class, so subclass behaviour is a
parameter here).  `sleep_time` is `self.reconnect_sleep_time` (source
default: 5 seconds). -/
structure ConnParams where
  caught : Err → Bool
  keepPred : Err → Bool
  sleep_time : Nat

/-- Log messages emitted by the supervisor loop, with the data the source
interpolates into them. -/
inductive CLog
  /-- The warn in the recoverable branch of `start()`: error, sleep interval,
  attempts so far, elapsed time (modelled as seconds slept so far). -/
  | reconnectWarn (e : Err) (sleep attempts elapsed : Nat)
  /-- The error log in the fatal branch of `start()` before `raise`. -/
  | noConnection (e : Err)
  /-- The warn in `_on_connected` when `connection_attempts > 1`. -/
  | reconnectedInfo (attempts elapsed : Nat)
deriving DecidableEq, Repr

/-- Mutable state of one `BaseConnection`, as set up by `__init__`:
`keep_connecting = True`, `connection_attempts = 1`,
`has_valid_connection = False`.  `slept` accumulates the seconds spent in
`time.sleep(self.reconnect_sleep_time)`; `log` records emitted diagnostics. -/
structure ConnState where
  keep_connecting : Bool
  connection_attempts : Nat
  has_valid_connection : Bool
  slept : Nat
  log : List CLog
deriving DecidableEq, Repr

/-- The state a fresh `BaseConnection` starts in. -/
def connInit : ConnState :=
  ⟨true, 1, false, 0, []⟩

/-- Outcome of one `self._start()` call inside the loop of `start()`:
either it returns normally or it raises an exception. -/
inductive Outcome
  | success
  | failure (e : Err)
deriving DecidableEq, Repr

/-- Result of running `start()` against a finite script of attempt outcomes. -/
inductive StartResult
  /-- The `while self.keep_connecting` condition was false, so `start()`
  returned normally. -/
  | finished (s : ConnState)
  /-- An exception propagated out of `start()` (either re-raised by the
  fatal branch or never caught by the `except` clause). -/
  | raised (e : Err) (s : ConnState)
  /-- The script was exhausted while the loop was still iterating:
  `start()` is about to call `_start()` yet again. -/
  | outOfScript (s : ConnState)
deriving DecidableEq, Repr

/-- `BaseConnection.start`, lines 120-142 of the source, with each script
element giving the outcome of one `self._start()` call.  On success the base
class `_start` merely sets `has_valid_connection = True` and the loop
continues (there is no break, no return and no `_on_connected` call on this
path).  On a failure `e`: if the `except self.reconnect_exceptions` clause
does not catch `e` it propagates immediately; if it is caught and
`_keep_connecting(e)` holds, the source warns, increments
`connection_attempts` and sleeps `reconnect_sleep_time`; otherwise it logs
the no-connection error and re-raises `e`. -/
def runStart (p : ConnParams) : ConnState → List Outcome → StartResult
  | s, [] => if s.keep_connecting then .outOfScript s else .finished s
  | s, o :: rest =>
    if s.keep_connecting then
      match o with
      | .success => runStart p { s with has_valid_connection := true } rest
      | .failure e =>
        if p.caught e then
          if p.keepPred e then
            runStart p
              { s with
                connection_attempts := s.connection_attempts + 1,
                slept := s.slept + p.sleep_time,
                log := s.log ++ [CLog.reconnectWarn e p.sleep_time s.connection_attempts s.slept] }
              rest
          else .raised e { s with log := s.log ++ [CLog.noConnection e] }
        else .raised e s
    else .finished s

/-- `BaseConnection._on_connected`, lines 104-118 of the source: if more than
one attempt was needed, warn with the attempt count and elapsed time; once
`has_valid_connection` holds, reset `connection_attempts` to 1.  (The
`first_connection_attempt_time` reset is a timestamp, not modelled beyond
the elapsed counter.)  Note that nothing in `start()` invokes this hook; in
the source it is called by subclass machinery only. -/
def onConnected (s : ConnState) : ConnState :=
  let s1 :=
    if 1 < s.connection_attempts then
      { s with log := s.log ++ [CLog.reconnectedInfo s.connection_attempts s.slept] }
    else s
  if s1.has_valid_connection then { s1 with connection_attempts := 1 } else s1

/-- The parameter values of a plain `BaseConnection` as constructed by
`__init__`: `reconnect_exceptions = ()` so the `except` clause catches
nothing, and `_keep_connecting` raises `NotImplementedError` (it is never
reached when nothing is caught; its value below is irrelevant). -/
def baseConnParams : ConnParams :=
  ⟨fun _ => false, fun _ => false, 5⟩

/-- A subclass configuration under which every exception is caught by the
`except self.reconnect_exceptions` clause and `_keep_connecting` always
answers yes, with the default 5-second sleep. -/
def allRecoverableParams : ConnParams :=
  ⟨fun _ => true, fun _ => true, 5⟩

/-- A subclass configuration under which every exception is caught but
`_keep_connecting` always answers no (every caught error is fatal). -/
def allFatalParams : ConnParams :=
  ⟨fun _ => true, fun _ => false, 5⟩

/-- Classification actually applied by `start()`: an exception leads to a
retry exactly when the `except` clause catches it and `_keep_connecting`
accepts it. -/
def retriedByStart (p : ConnParams) (e : Err) : Bool :=
  p.caught e && p.keepPred e

/-- Modelled from the spec: the spec section 4.1 classifier, stated in the
spec's own words for comparison with the code.  Recoverable iff the error's
errno is in the fixed network-failure list or the error is among the
caller-supplied reconnect exceptions. -/
def isRecoverable_spec (caught : Err → Bool) (e : Err) : Bool :=
  reconnect_error_numbers.contains e.eno || caught e

/-! ## The named connection store (`BaseConnPoolStore`, `BasePoolAPI`) -/

/-- Modelled from the spec: `zato.common.SECRET_SHADOW`, the fixed shadow
placeholder written over password fields in redacted configurations
(`zato.common` is not under `src/`; the spec calls it "a fixed shadow
placeholder"). -/
def SECRET_SHADOW : String := "*****"

/-- A connection configuration (a `Bunch` in the source).  The fields the
core reads are explicit (`name` for `edit`, `password` for redaction,
`is_active` for the pool facade); all remaining resource-specific fields
are the `extra` association list. -/
structure Config where
  name : String
  password : String
  is_active : Bool
  extra : List (String × String)
deriving DecidableEq, Repr

/-- Lines 337-338 of `_create`: `config_no_sensitive = deepcopy(config)`
followed by `config_no_sensitive['password'] = SECRET_SHADOW`. -/
def redact (c : Config) : Config :=
  { c with password := SECRET_SHADOW }

/-- One entry of `self.sessions`: the `Bunch(config=config,
config_no_sensitive=config_no_sensitive, is_connected=False, conn=None)`
built at line 340, with `conn`/`is_connected` updated on success.  Session
handles are abstract and modelled as `Nat`. -/
structure Item where
  config : Config
  config_no_sensitive : Config
  is_connected : Bool
  conn : Option Nat
deriving DecidableEq, Repr

/-- The `self.sessions` dictionary, as an association list with dictionary
update semantics (`sinsert` replaces in place, `serase` removes the key). -/
abbrev Sessions := List (String × Item)

def slookup : Sessions → String → Option Item
  | [], _ => none
  | p :: rest, name => if p.1 = name then some p.2 else slookup rest name

def sinsert : Sessions → String → Item → Sessions
  | [], name, item => [(name, item)]
  | p :: rest, name, item =>
    if p.1 = name then (name, item) :: rest else p :: sinsert rest name item

def serase (l : Sessions) (name : String) : Sessions :=
  l.filter (fun p => p.1 ≠ name)

def skeys (l : Sessions) : List String :=
  l.map Prod.fst

/-- Insert a string into an already sorted list, preserving order. -/
def insertSorted (x : String) : List String → List String
  | [] => [x]
  | y :: ys => if x ≤ y then x :: y :: ys else y :: insertSorted x ys

/-- The Python builtin `sorted` applied to the store's keys, as used in the
`BasePoolAPI.__getitem__` error message. -/
def sortStr : List String → List String
  | [] => []
  | x :: xs => insertSorted x (sortStr xs)

/-- State shared by one `BaseConnPoolStore` instance, as set up in
`__init__`: an empty `sessions` dictionary and the store-wide
`keep_connecting = True` flag.  (The `RLock` is modelled by the explicit
lock-depth arguments of the operations below.) -/
structure StoreState where
  sessions : Sessions
  keep_connecting : Bool
deriving DecidableEq, Repr

/-- Outcome of one `self.create_session(name, config, config_no_sensitive)`
call inside the `_create` retry loop (the capability itself is
subclass-supplied): a session handle, a raised `Exception` (identified by a
numeric id), or a raised `KeyboardInterrupt`. -/
inductive SAttempt
  | ok (s : Nat)
  | exc (e : Nat)
  | interrupt
deriving DecidableEq, Repr

/-- A store-level log entry: `_log_connection_error(name,
config_no_sensitive, e, additional)`, where `sleeping` marks the
", sleeping for 30 s" suffix used inside the retry loop. -/
inductive SLog
  | connError (name : String) (cfg : Config) (e : Nat) (sleeping : Bool)
deriving DecidableEq, Repr

/-- Result of the `while self.keep_connecting` loop of `_create`. -/
structure LoopOut where
  /-- Final value of the store-wide `keep_connecting` flag. -/
  kc : Bool
  /-- The local variable `session`: `some` once bound by a successful
  `create_session` call, `none` while still unbound. -/
  sessionVar : Option Nat
  log : List SLog
  /-- Seconds spent in `self._gevent.sleep(30)` calls. -/
  slept : Nat
  /-- Number of `create_session` attempts made. -/
  consumed : Nat
  /-- True when the script ran out while the loop was still iterating. -/
  exhausted : Bool
deriving DecidableEq, Repr

/-- Lines 345-356 of `_create`: loop while the store-wide `keep_connecting`
holds; a successful `create_session` binds `session` and clears the flag; a
`KeyboardInterrupt` clears the flag without binding `session`; any other
exception is logged with the redacted config and followed by a fixed
30-second sleep, then the loop retries. -/
def createLoop (name : String) (cns : Config) (kc : Bool) (sv : Option Nat)
    (log : List SLog) (slept consumed : Nat) : List SAttempt → LoopOut
  | [] =>
    if kc then ⟨true, sv, log, slept, consumed, true⟩
    else ⟨false, sv, log, slept, consumed, false⟩
  | a :: rest =>
    if kc then
      match a with
      | .ok s => createLoop name cns false (some s) log slept (consumed + 1) rest
      | .interrupt => createLoop name cns false sv log slept (consumed + 1) rest
      | .exc e =>
        createLoop name cns true sv (log ++ [SLog.connError name cns e true])
          (slept + 30) (consumed + 1) rest
    else ⟨false, sv, log, slept, consumed, false⟩

/-- How a `_create` invocation ends. -/
inductive CreateRes
  /-- The function reached `return item` (so `self.sessions[name] = item`
  was executed just before). -/
  | returned (item : Item)
  /-- The `else` clause executed `item.conn = session` while the local
  `session` variable was never bound, raising `NameError`
  (`UnboundLocalError`); the `except` clauses of the surrounding `try` do
  not cover its `else` block, so the exception propagates and the
  `self.sessions[name] = item` line is never reached. -/
  | nameError
  /-- The outcome script was exhausted while the retry loop was still
  iterating: `_create` has neither returned nor raised yet. -/
  | pending
deriving DecidableEq, Repr

/-- Full observable outcome of one `_create` invocation. -/
structure CreateOut where
  st : StoreState
  log : List SLog
  slept : Nat
  consumed : Nat
  result : CreateRes
  /-- `some d` iff `self.sessions[name] = item` executed, where `d` is the
  lock depth the invoking context held at that moment (`_create` itself
  never acquires `self.lock`). -/
  assignedAtLockDepth : Option Nat
  /-- Configurations passed to `on_connection_established_callback`. -/
  cbCalls : List Config
deriving DecidableEq, Repr

/-- `BaseConnPoolStore._create`, lines 336-370 of the source, against a
finite script of `create_session` outcomes.  Builds the redacted config and
the initial item, runs the retry loop, and then: if the loop ended with the
local `session` variable bound, fills in the item, invokes the callback if
any, assigns `self.sessions[name] = item` and returns the item; if the loop
ended without `session` ever being bound (interrupt, or `keep_connecting`
already false on entry), the `else` clause raises `NameError` and no
assignment happens.  `lockDepth` records how many times the invoking
context holds `self.lock` (used only to report where the assignment ran). -/
def storeCreate (st : StoreState) (name : String) (config : Config) (hasCb : Bool)
    (lockDepth : Nat) (script : List SAttempt) : CreateOut :=
  let cns := redact config
  let lo := createLoop name cns st.keep_connecting none [] 0 0 script
  if lo.exhausted then
    ⟨⟨st.sessions, lo.kc⟩, lo.log, lo.slept, lo.consumed, .pending, none, []⟩
  else
    match lo.sessionVar with
    | some s =>
      let item : Item := ⟨config, cns, true, some s⟩
      ⟨⟨sinsert st.sessions name item, lo.kc⟩, lo.log, lo.slept, lo.consumed,
        .returned item, some lockDepth, if hasCb then [config] else []⟩
    | none =>
      ⟨⟨st.sessions, lo.kc⟩, lo.log, lo.slept, lo.consumed, .nameError, none, []⟩

/-- `BaseConnPoolStore.create`, lines 372-376: takes `self.lock` only around
`self._gevent.spawn(self._create, ...)`.  The spawned greenlet runs after
the spawning greenlet has released the lock (gevent's spawn only schedules
the greenlet; the `RLock` is per-greenlet and `_create` itself never
acquires it), so the task body executes at lock depth 0. -/
def runSpawnedCreate (st : StoreState) (name : String) (config : Config)
    (hasCb : Bool) (script : List SAttempt) : CreateOut :=
  storeCreate st name config hasCb 0 script

/-- What the `except` clause of `delete` logged ("Error while shutting down
session"): either the `Exception('No such name ...')` raised when the name
is absent (carrying the keys listed in its message), or an exception raised
by the subclass-supplied `delete_session` teardown. -/
inductive DelCause
  | noSuchName (known : List String)
  | teardown (e : Nat)
deriving DecidableEq, Repr

inductive DLog
  | shutdownError (name : String) (cause : DelCause)
deriving DecidableEq, Repr

/-- How `delete` ends: a normal return, or the `KeyError` raised by
`del self.sessions[name]` in the `finally` block when the name is absent
(the `finally` block is outside the `except` handler, so this `KeyError`
propagates to the caller). -/
inductive DelRes
  | ok
  | keyErrorRaised
deriving DecidableEq, Repr

structure DelOut where
  st : StoreState
  log : List DLog
  result : DelRes
deriving DecidableEq, Repr

/-- `BaseConnPoolStore.delete`, lines 383-399, under `self.lock`.  The
subclass-supplied `delete_session` capability is the parameter `ds`
(`ds name = some e` means it raises exception `e`, `none` means it returns).
Body: `try`: raise if `name` is absent, else call `delete_session(name)`
when the entry `is_connected`; `except Exception`: log; `finally`:
`del self.sessions[name]` — which itself raises `KeyError` when `name` was
absent, and that exception escapes `delete`. -/
def storeDelete (st : StoreState) (ds : String → Option Nat) (name : String) : DelOut :=
  let log : List DLog :=
    match slookup st.sessions name with
    | none => [DLog.shutdownError name (DelCause.noSuchName (skeys st.sessions))]
    | some item =>
      if item.is_connected then
        match ds name with
        | some e => [DLog.shutdownError name (DelCause.teardown e)]
        | none => []
      else []
  match slookup st.sessions name with
  | none => ⟨st, log, .keyErrorRaised⟩
  | some _ => ⟨⟨serase st.sessions name, st.keep_connecting⟩, log, .ok⟩

/-- Number of required positional arguments of `_create` after `self`:
`(name, config, on_connection_established_callback)`, none of which has a
default value in its `def` at line 336. -/
def create_required_args : Nat := 3

/-- Number of positional arguments supplied at the call site inside `edit`,
line 404: `self._create(config.name, config)`. -/
def edit_create_args : Nat := 2

/-- How `edit` ends: `delete_session` raised (nothing in `edit` catches it),
the `self._create(config.name, config)` call raised `TypeError` because the
supplied and required argument counts differ, or (were the arities to
match) the result of the synchronous `_create` run. -/
inductive EditRes
  | dsError (e : Nat)
  | typeError
  | created (co : CreateOut)
deriving DecidableEq, Repr

structure EditOut where
  st : StoreState
  result : EditRes
deriving DecidableEq, Repr

/-- `BaseConnPoolStore.edit`, lines 401-404, under `self.lock`:
`self.delete_session(name)` (teardown only, the map entry is not removed;
any exception it raises propagates), then `return self._create(config.name,
config)`.  Python checks the call's arity before entering `_create`: the
call supplies `edit_create_args` positional arguments while `_create`
requires `create_required_args`, so when the two differ (they do, 2 versus
3) the call raises `TypeError` and the store is left unmodified. -/
def storeEdit (st : StoreState) (ds : String → Option Nat) (name : String)
    (config : Config) (script : List SAttempt) : EditOut :=
  match ds name with
  | some e => ⟨st, .dsError e⟩
  | none =>
    if edit_create_args = create_required_args then
      -- unreachable (2 is not 3): with matching arity the call would run
      -- `_create` synchronously inside the `with self.lock` block
      let co := storeCreate st config.name config false 1 script
      ⟨co.st, .created co⟩
    else ⟨st, .typeError⟩

/-- The `password_data` Bunch given to `change_password`; the source reads
its `name` and `password` fields. -/
structure PasswordData where
  name : String
  password : String
deriving DecidableEq, Repr

/-- How `change_password` ends: the `self.sessions[password_data.name]`
subscript raised `KeyError` (name absent), or whatever `edit` produced. -/
inductive CPRes
  | keyErrorRaised
  | fromEdit (r : EditRes)
deriving DecidableEq, Repr

structure CPOut where
  st : StoreState
  result : CPRes
deriving DecidableEq, Repr

/-- `BaseConnPoolStore.change_password`, lines 406-410, under `self.lock`:
`new_config = deepcopy(self.sessions[password_data.name].config_no_sensitive)`,
then `new_config.password = password_data.password`, then
`return self.edit(password_data.name, new_config)`. -/
def storeChangePassword (st : StoreState) (ds : String → Option Nat)
    (pd : PasswordData) (script : List SAttempt) : CPOut :=
  match slookup st.sessions pd.name with
  | none => ⟨st, .keyErrorRaised⟩
  | some item =>
    let new_config := { item.config_no_sensitive with password := pd.password }
    let eo := storeEdit st ds pd.name new_config script
    ⟨eo.st, .fromEdit eo.result⟩

/-- Result of `BasePoolAPI.__getitem__`. -/
inductive GetResult
  /-- The `KeyError` raised when the name is absent, carrying the
  `sorted(self._conn_store.sessions)` key list interpolated into its
  message. -/
  | keyError (known : List String)
  /-- The `Inactive` exception raised when the entry's config has
  `is_active` false. -/
  | inactive (name : String)
  /-- The entry, returned unchanged. -/
  | found (item : Item)
deriving DecidableEq, Repr

/-- `BasePoolAPI.__getitem__`, lines 273-285: `item = self._conn_store.get(name)`;
if no item, raise `KeyError` whose message lists `sorted(sessions)`; if
`item.config.is_active` is falsy, raise `Inactive`; else return the item.
(The `if not item` test is falsy exactly on `None` here, since every stored
item is a non-empty `Bunch`.) -/
def poolGetitem (st : StoreState) (name : String) : GetResult :=
  match slookup st.sessions name with
  | none => .keyError (sortStr (skeys st.sessions))
  | some item =>
    if item.config.is_active then .found item else .inactive name

/-- A sample configuration used for concrete instantiations. -/
def cfgA : Config := ⟨"a", "pw", true, []⟩

/-- A sample connected store entry for the name "a". -/
def itemA : Item := ⟨cfgA, redact cfgA, true, some 5⟩

/-! ## Helper lemmas -/

theorem runStart_retrySteps (p : ConnParams) (errs : List Err) :
    ∀ s : ConnState,
      s.keep_connecting = true →
      (∀ e ∈ errs, p.caught e = true ∧ p.keepPred e = true) →
      ∃ s2 : ConnState,
        (∀ script : List Outcome,
          runStart p s (errs.map Outcome.failure ++ script) = runStart p s2 script) ∧
        s2.keep_connecting = true ∧
        s2.connection_attempts = s.connection_attempts + errs.length ∧
        s2.slept = s.slept + errs.length * p.sleep_time ∧
        s2.has_valid_connection = s.has_valid_connection := by
  induction errs with
  | nil =>
    intro s hkc _
    exact ⟨s, fun script => by simp, hkc, by simp, by simp, rfl⟩
  | cons e errs ih =>
    intro s hkc hall
    have hce : p.caught e = true := (hall e (by simp)).1
    have hke : p.keepPred e = true := (hall e (by simp)).2
    obtain ⟨s2, hrun, h1, h2, h3, h4⟩ :=
      ih { s with
            connection_attempts := s.connection_attempts + 1,
            slept := s.slept + p.sleep_time,
            log := s.log ++ [CLog.reconnectWarn e p.sleep_time s.connection_attempts s.slept] }
        hkc (fun x hx => hall x (by simp [hx]))
    refine ⟨s2, ?_, h1, ?_, ?_, h4⟩
    · intro script
      have hstep :
          runStart p s ((e :: errs).map Outcome.failure ++ script) =
            runStart p
              { s with
                connection_attempts := s.connection_attempts + 1,
                slept := s.slept + p.sleep_time,
                log := s.log ++ [CLog.reconnectWarn e p.sleep_time s.connection_attempts s.slept] }
              (errs.map Outcome.failure ++ script) := by
        simp [runStart, hkc, hce, hke]
      rw [hstep, hrun script]
    · have h2a : s2.connection_attempts = s.connection_attempts + 1 + errs.length := h2
      simp only [List.length_cons]
      omega
    · have h3a : s2.slept = s.slept + p.sleep_time + errs.length * p.sleep_time := h3
      simp only [List.length_cons]
      rw [h3a]
      ring


theorem createLoop_stop (name : String) (cns : Config) (sv : Option Nat)
    (log : List SLog) (slept consumed : Nat) :
    ∀ script : List SAttempt,
      createLoop name cns false sv log slept consumed script =
        ⟨false, sv, log, slept, consumed, false⟩
  | [] => rfl
  | _ :: _ => rfl

theorem createLoop_errs (name : String) (cns : Config) (es : List Nat) :
    ∀ (sv : Option Nat) (log : List SLog) (slept consumed : Nat),
      createLoop name cns true sv log slept consumed (es.map SAttempt.exc) =
        ⟨true, sv, log ++ es.map (fun e => SLog.connError name cns e true),
          slept + 30 * es.length, consumed + es.length, true⟩ := by
  induction es with
  | nil => intro sv log slept consumed; simp [createLoop]
  | cons e es ih =>
    intro sv log slept consumed
    have hstep :
        createLoop name cns true sv log slept consumed ((e :: es).map SAttempt.exc) =
          createLoop name cns true sv (log ++ [SLog.connError name cns e true])
            (slept + 30) (consumed + 1) (es.map SAttempt.exc) := rfl
    rw [hstep, ih]
    simp [List.append_assoc, LoopOut.mk.injEq]
    constructor <;> omega

theorem slookup_sinsert (l : Sessions) (name : String) (item : Item) :
    slookup (sinsert l name item) name = some item := by
  induction l with
  | nil => simp [sinsert, slookup]
  | cons p rest ih =>
    by_cases h : p.1 = name
    · simp [sinsert, slookup, h]
    · simp [sinsert, slookup, h, ih]

theorem slookup_serase (l : Sessions) (name : String) :
    slookup (serase l name) name = none := by
  induction l with
  | nil => rfl
  | cons p rest ih =>
    by_cases h : p.1 = name
    · simpa [serase, List.filter_cons, h] using ih
    · simpa [serase, List.filter_cons, h, slookup] using ih

theorem mem_insertSorted (x y : String) (l : List String) :
    y ∈ insertSorted x l ↔ y = x ∨ y ∈ l := by
  induction l with
  | nil => simp [insertSorted]
  | cons z zs ih =>
    by_cases h : x ≤ z
    · simp [insertSorted, h]
    · simp [insertSorted, h, ih]
      tauto

theorem mem_sortStr (y : String) (l : List String) : y ∈ sortStr l ↔ y ∈ l := by
  induction l with
  | nil => simp [sortStr]
  | cons x xs ih => simp [sortStr, mem_insertSorted, ih]

/-! ## Claim theorems -/

/-- C1, counterexample.  With k = 1: a recoverable `ECONNREFUSED` failure
followed by a successful attempt.  The claim says `start()` then performs
exactly 2 attempts, calls the on-connected hook and returns normally.  The
code instead keeps looping: it performs a third attempt (the second
`success` in the script is consumed and the run ends `outOfScript`, still
with `keep_connecting` true, rather than `finished`), and the final state
lacks the hook's effect — applying `onConnected` to it would reset
`connection_attempts` from 2 to 1, which `start()` never did. -/
theorem c1_counterexample :
    runStart allRecoverableParams connInit
      [Outcome.failure ⟨0, ECONNREFUSED⟩, Outcome.success, Outcome.success] =
      StartResult.outOfScript
        ⟨true, 2, true, 5, [CLog.reconnectWarn ⟨0, ECONNREFUSED⟩ 5 1 0]⟩ ∧
    (onConnected
        ⟨true, 2, true, 5, [CLog.reconnectWarn ⟨0, ECONNREFUSED⟩ 5 1 0]⟩).connection_attempts =
      1 :=
  ⟨rfl, rfl⟩

/-- C1, amended.  For every subclass classification under which the first k
attempt errors are recoverable, after those k failures and one success the
loop has performed exactly k+1 attempts, `connection_attempts` is k+1, the
time slept is exactly k times `reconnect_sleep_time` (so the elapsed time is
at least that), and `has_valid_connection` holds — but `start()` has not
returned: the loop is still iterating (`outOfScript`, `keep_connecting`
still true), and the on-connected hook was not invoked by `start()`. -/
theorem c1_amended (p : ConnParams) (errs : List Err)
    (h : ∀ e ∈ errs, p.caught e = true ∧ p.keepPred e = true) :
    ∃ s : ConnState,
      runStart p connInit (errs.map Outcome.failure ++ [Outcome.success]) =
        StartResult.outOfScript s ∧
      s.connection_attempts = errs.length + 1 ∧
      s.slept = errs.length * p.sleep_time ∧
      s.has_valid_connection = true ∧
      s.keep_connecting = true := by
  obtain ⟨s2, hrun, h1, h2, h3, _⟩ := runStart_retrySteps p errs connInit rfl h
  have h2a : s2.connection_attempts = 1 + errs.length := h2
  have h3a : s2.slept = 0 + errs.length * p.sleep_time := h3
  refine ⟨{ s2 with has_valid_connection := true }, ?_, ?_, ?_, rfl, h1⟩
  · rw [hrun [Outcome.success]]
    simp [runStart, h1]
  · show s2.connection_attempts = errs.length + 1
    omega
  · show s2.slept = errs.length * p.sleep_time
    omega

/-- C1, witness for the amended theorem at k = 1. -/
theorem c1_amended_witness :
    ∃ s : ConnState,
      runStart allRecoverableParams connInit
        [Outcome.failure ⟨0, ECONNREFUSED⟩, Outcome.success] =
        StartResult.outOfScript s ∧
      s.connection_attempts = 2 ∧
      s.slept = 5 ∧
      s.has_valid_connection = true ∧
      s.keep_connecting = true := by
  have h := c1_amended allRecoverableParams [⟨0, ECONNREFUSED⟩]
    (fun e _ => ⟨rfl, rfl⟩)
  simpa [allRecoverableParams] using h

/-- C6, counterexample.  Take a plain `BaseConnection` as `__init__` builds
it (`reconnect_exceptions = ()`), and an `EnvironmentError` whose errno is
`ECONNREFUSED` — a member of the fixed network-failure set.  The spec's
classifier calls it recoverable, but `start()` propagates it on the first
attempt without any retry, because the `except self.reconnect_exceptions`
clause catches nothing. -/
theorem c6_counterexample :
    isRecoverable_spec baseConnParams.caught ⟨0, ECONNREFUSED⟩ = true ∧
    runStart baseConnParams connInit [Outcome.failure ⟨0, ECONNREFUSED⟩] =
      StartResult.raised ⟨0, ECONNREFUSED⟩ connInit :=
  ⟨by decide, rfl⟩

/-- C6, amended.  An error raised during a connect attempt is retried
exactly when its exception type is among the caller-supplied
`reconnect_exceptions` (so the `except` clause catches it) and the
subclass's `_keep_connecting` accepts it; every other error — including one
whose errno is in the fixed network-failure set but whose type is not
caught — is propagated without further retries.  Stated after an arbitrary
prefix of retried errors: the next error continues the loop iff
`retriedByStart` holds of it, and otherwise the run raises it. -/
theorem c6_amended (p : ConnParams) (errs : List Err) (e : Err) (rest : List Outcome)
    (h : ∀ x ∈ errs, p.caught x = true ∧ p.keepPred x = true) :
    (retriedByStart p e = true →
      ∃ s : ConnState,
        runStart p connInit (errs.map Outcome.failure ++ Outcome.failure e :: rest) =
          runStart p s rest ∧
        s.keep_connecting = true ∧
        s.connection_attempts = errs.length + 2) ∧
    (retriedByStart p e = false →
      ∃ s : ConnState,
        runStart p connInit (errs.map Outcome.failure ++ Outcome.failure e :: rest) =
          StartResult.raised e s) := by
  obtain ⟨s2, hrun, h1, h2, _, _⟩ := runStart_retrySteps p errs connInit rfl h
  have h2a : s2.connection_attempts = 1 + errs.length := h2
  constructor
  · intro hr
    rw [retriedByStart, Bool.and_eq_true] at hr
    refine ⟨{ s2 with
        connection_attempts := s2.connection_attempts + 1,
        slept := s2.slept + p.sleep_time,
        log := s2.log ++ [CLog.reconnectWarn e p.sleep_time s2.connection_attempts s2.slept] },
      ?_, h1, ?_⟩
    · rw [hrun (Outcome.failure e :: rest)]
      simp [runStart, h1, hr.1, hr.2]
    · show s2.connection_attempts + 1 = errs.length + 2
      omega
  · intro hr
    rw [hrun (Outcome.failure e :: rest)]
    by_cases hc : p.caught e = true
    · have hk : p.keepPred e = false := by
        rw [retriedByStart, hc] at hr
        simpa using hr
      refine ⟨{ s2 with log := s2.log ++ [CLog.noConnection e] }, ?_⟩
      simp [runStart, h1, hc, hk]
    · have hc2 : p.caught e = false := by simpa using hc
      exact ⟨s2, by simp [runStart, h1, hc2]⟩

/-- C6, witness for the amended theorem: the plain base-class configuration
propagates the `ECONNREFUSED` error on the first attempt. -/
theorem c6_amended_witness :
    ∃ s : ConnState,
      runStart baseConnParams connInit [Outcome.failure ⟨0, ECONNREFUSED⟩] =
        StartResult.raised ⟨0, ECONNREFUSED⟩ s := by
  have h := (c6_amended baseConnParams [] ⟨0, ECONNREFUSED⟩ []
    (fun x hx => absurd hx (List.not_mem_nil x))).2 (by decide)
  simpa using h

/-- C7, confirmed.  After any prefix of retried errors, if an attempt raises
an error that is caught and that `_keep_connecting` classifies as not
recoverable, `start()` logs the no-connection error diagnostic (it is the
last log entry) and terminates by re-raising that same error after exactly
prefix-length + 1 attempts; the resulting state is the same whatever
outcomes would have followed, i.e. no further connect attempt is made. -/
theorem c7_fatal (p : ConnParams) (errs : List Err) (e : Err)
    (h1 : ∀ x ∈ errs, p.caught x = true ∧ p.keepPred x = true)
    (h2 : p.caught e = true) (h3 : p.keepPred e = false) :
    ∃ s : ConnState,
      (∀ rest : List Outcome,
        runStart p connInit (errs.map Outcome.failure ++ Outcome.failure e :: rest) =
          StartResult.raised e s) ∧
      s.connection_attempts = errs.length + 1 ∧
      s.log.getLast? = some (CLog.noConnection e) := by
  obtain ⟨s2, hrun, hkc, hca, _, _⟩ := runStart_retrySteps p errs connInit rfl h1
  have hca2 : s2.connection_attempts = 1 + errs.length := hca
  refine ⟨{ s2 with log := s2.log ++ [CLog.noConnection e] }, ?_, ?_, ?_⟩
  · intro rest
    rw [hrun (Outcome.failure e :: rest)]
    simp [runStart, hkc, h2, h3]
  · show s2.connection_attempts = errs.length + 1
    omega
  · show (s2.log ++ [CLog.noConnection e]).getLast? = some (CLog.noConnection e)
    simp

/-- C7, witness: a fatal error on the first attempt under a subclass whose
`_keep_connecting` rejects everything. -/
theorem c7_fatal_witness :
    ∃ s : ConnState,
      (∀ rest : List Outcome,
        runStart allFatalParams connInit (Outcome.failure ⟨7, 0⟩ :: rest) =
          StartResult.raised ⟨7, 0⟩ s) ∧
      s.connection_attempts = 1 ∧
      s.log.getLast? = some (CLog.noConnection ⟨7, 0⟩) := by
  have h := c7_fatal allFatalParams [] ⟨7, 0⟩
    (fun x hx => absurd hx (List.not_mem_nil x)) rfl rfl
  simpa using h

/-- C2, code bug.  On a store holding the name "a", with a `delete_session`
teardown that returns normally, `edit` does not return a freshly created
entry: the call `self._create(config.name, config)` supplies 2 positional
arguments to a method whose signature requires 3
(`name, config, on_connection_established_callback`, no defaults), so the
call raises `TypeError` and the store is left unchanged. -/
theorem c2_edit_type_error :
    storeEdit ⟨[("a", itemA)], true⟩ (fun _ => none) "a" ⟨"a", "pw2", true, []⟩ [] =
      ⟨⟨[("a", itemA)], true⟩, EditRes.typeError⟩ :=
  rfl

/-- C3, counterexample.  Deleting a name absent from the store: the error is
logged by the `except` clause, but the `del self.sessions[name]` in the
`finally` block then raises `KeyError`, which propagates to the caller —
contradicting the claim that `delete` never raises. -/
theorem c3_counterexample :
    storeDelete ⟨[], true⟩ (fun _ => none) "missing" =
      ⟨⟨[], true⟩,
        [DLog.shutdownError "missing" (DelCause.noSuchName [])],
        DelRes.keyErrorRaised⟩ :=
  rfl

/-- C3, amended.  For a name present in the store, `delete` returns normally
and the name is absent afterwards, whatever the teardown does (a teardown
exception is logged and swallowed); for a name absent from the store, the
error is logged but the cleanup `del self.sessions[name]` then raises
`KeyError` to the caller and the store is unchanged. -/
theorem c3_amended (st : StoreState) (ds : String → Option Nat) (name : String) :
    (∀ item : Item, slookup st.sessions name = some item →
      (storeDelete st ds name).result = DelRes.ok ∧
      slookup (storeDelete st ds name).st.sessions name = none) ∧
    (slookup st.sessions name = none →
      (storeDelete st ds name).result = DelRes.keyErrorRaised ∧
      (storeDelete st ds name).st = st) := by
  constructor
  · intro item hit
    constructor
    · simp [storeDelete, hit]
    · simp [storeDelete, hit, slookup_serase]
  · intro hnone
    simp [storeDelete, hnone]

/-- C3, witness for the amended theorem: a present entry whose teardown
raises is still removed without `delete` raising. -/
theorem c3_amended_witness :
    (storeDelete ⟨[("a", itemA)], true⟩ (fun _ => some 3) "a").result = DelRes.ok ∧
    slookup (storeDelete ⟨[("a", itemA)], true⟩ (fun _ => some 3) "a").st.sessions "a" =
      none :=
  (c3_amended ⟨[("a", itemA)], true⟩ (fun _ => some 3) "a").1 itemA rfl

/-- C4, counterexample.  A creation task interrupted by `KeyboardInterrupt`
on its first attempt: the loop exits with the local `session` variable
unbound, the `else` clause raises `NameError`, and nothing is ever assigned
into `sessions` — contradicting the claim that the item is always assigned
(and, a fortiori, that the assignment happens under the store's lock). -/
theorem c4_counterexample :
    (runSpawnedCreate ⟨[], true⟩ "a" cfgA false [SAttempt.interrupt]).result =
      CreateRes.nameError ∧
    (runSpawnedCreate ⟨[], true⟩ "a" cfgA false [SAttempt.interrupt]).st.sessions = [] ∧
    (runSpawnedCreate ⟨[], true⟩ "a" cfgA false [SAttempt.interrupt]).assignedAtLockDepth =
      none :=
  ⟨rfl, rfl, rfl⟩

/-- C4, amended.  A `_create` task spawned by `create` assigns the finished
item into `sessions[name]` exactly on the runs where it returns the item
(the loop ended with a session bound), and it performs that assignment with
the store's lock not held (lock depth 0 — `create` only locks around the
spawn and `_create` itself never acquires the lock); on the runs ending in
the unbound-session `NameError` no assignment happens at all. -/
theorem c4_amended (st : StoreState) (name : String) (config : Config) (hasCb : Bool)
    (script : List SAttempt) (item : Item)
    (h : (runSpawnedCreate st name config hasCb script).result = CreateRes.returned item) :
    slookup (runSpawnedCreate st name config hasCb script).st.sessions name = some item ∧
    (runSpawnedCreate st name config hasCb script).assignedAtLockDepth = some 0 := by
  unfold runSpawnedCreate at h ⊢
  simp only [storeCreate] at h ⊢
  by_cases hex :
      (createLoop name (redact config) st.keep_connecting none [] 0 0 script).exhausted = true
  · rw [if_pos hex] at h
    simp at h
  · rw [if_neg hex] at h ⊢
    cases hsv : (createLoop name (redact config) st.keep_connecting none [] 0 0 script).sessionVar with
    | none =>
      simp only [hsv] at h
      simp at h
    | some s =>
      simp only [hsv] at h ⊢
      simp only [CreateRes.returned.injEq] at h
      subst h
      exact ⟨slookup_sinsert _ _ _, by simp⟩

/-- C4, witness for the amended theorem: a spawned creation that succeeds on
its first attempt stores the item, at lock depth 0. -/
theorem c4_amended_witness :
    slookup (runSpawnedCreate ⟨[], true⟩ "a" cfgA false [SAttempt.ok 5]).st.sessions "a" =
      some ⟨cfgA, redact cfgA, true, some 5⟩ ∧
    (runSpawnedCreate ⟨[], true⟩ "a" cfgA false [SAttempt.ok 5]).assignedAtLockDepth =
      some 0 :=
  c4_amended ⟨[], true⟩ "a" cfgA false [SAttempt.ok 5] ⟨cfgA, redact cfgA, true, some 5⟩ rfl

/-- C5, confirmed.  `BasePoolAPI.__getitem__`: an absent name raises the
NotFound-kind `KeyError` whose message lists exactly the currently known
names (sorted); a present entry whose config is inactive raises the
Inactive-kind error; a present, active entry is returned unchanged. -/
theorem c5_lookup (st : StoreState) (name : String) :
    (slookup st.sessions name = none →
      poolGetitem st name = GetResult.keyError (sortStr (skeys st.sessions)) ∧
      ∀ k : String, k ∈ sortStr (skeys st.sessions) ↔ k ∈ skeys st.sessions) ∧
    (∀ item : Item, slookup st.sessions name = some item →
      (item.config.is_active = true → poolGetitem st name = GetResult.found item) ∧
      (item.config.is_active = false → poolGetitem st name = GetResult.inactive name)) := by
  constructor
  · intro hn
    exact ⟨by simp [poolGetitem, hn], fun k => mem_sortStr k _⟩
  · intro item hit
    constructor <;> intro ha <;> simp [poolGetitem, hit, ha]

/-- C5, witness: lookup of a name in an empty store. -/
theorem c5_lookup_witness :
    poolGetitem ⟨[], true⟩ "nope" = GetResult.keyError [] ∧
    ∀ k : String, k ∈ ([] : List String) ↔ k ∈ ([] : List String) :=
  (c5_lookup ⟨[], true⟩ "nope").1 rfl

/-- C8, confirmed.  Inside the store-level `_create` retry loop, every
`create_session` error (of any kind other than the interrupt) is logged
together with the redacted config — whose password field is the shadow
placeholder — and followed by a fixed 30-second sleep and a retry: after k
such errors the run is still `pending` (no error has propagated, nothing
was stored), having made exactly k attempts and slept exactly 30k seconds;
only the interrupt or a cleared `keep_connecting` flag could have stopped
it. -/
theorem c8_store_retry (st : StoreState) (name : String) (config : Config)
    (hasCb : Bool) (lockDepth : Nat) (es : List Nat)
    (h : st.keep_connecting = true) :
    (storeCreate st name config hasCb lockDepth (es.map SAttempt.exc)).result =
      CreateRes.pending ∧
    (storeCreate st name config hasCb lockDepth (es.map SAttempt.exc)).log =
      es.map (fun e => SLog.connError name (redact config) e true) ∧
    (storeCreate st name config hasCb lockDepth (es.map SAttempt.exc)).slept =
      30 * es.length ∧
    (storeCreate st name config hasCb lockDepth (es.map SAttempt.exc)).consumed =
      es.length ∧
    (storeCreate st name config hasCb lockDepth (es.map SAttempt.exc)).st.sessions =
      st.sessions ∧
    (redact config).password = SECRET_SHADOW := by
  simp only [storeCreate]
  rw [h, createLoop_errs]
  simp [redact]

/-- C8, witness: two consecutive errors in a fresh store. -/
theorem c8_store_retry_witness :
    (storeCreate ⟨[], true⟩ "a" cfgA false 0 [SAttempt.exc 7, SAttempt.exc 8]).result =
      CreateRes.pending ∧
    (storeCreate ⟨[], true⟩ "a" cfgA false 0 [SAttempt.exc 7, SAttempt.exc 8]).log =
      [SLog.connError "a" (redact cfgA) 7 true, SLog.connError "a" (redact cfgA) 8 true] ∧
    (storeCreate ⟨[], true⟩ "a" cfgA false 0 [SAttempt.exc 7, SAttempt.exc 8]).slept = 60 ∧
    (storeCreate ⟨[], true⟩ "a" cfgA false 0 [SAttempt.exc 7, SAttempt.exc 8]).consumed = 2 ∧
    (storeCreate ⟨[], true⟩ "a" cfgA false 0 [SAttempt.exc 7, SAttempt.exc 8]).st.sessions =
      [] ∧
    (redact cfgA).password = SECRET_SHADOW := by
  have h := c8_store_retry ⟨[], true⟩ "a" cfgA false 0 [7, 8] rfl
  simpa using h

/-- C9, code bug.  On a store holding the name "a", `change_password` builds
the intended new config — identical to the previous config in every field
except `password`, which becomes the new plaintext, while re-redacting it
restores the shadow placeholder, never the plaintext — but the operation
itself raises `TypeError` through `edit` (the `_create` call's arity
mismatch), so the new entry is never installed. -/
theorem c9_change_password_type_error :
    (storeChangePassword ⟨[("a", ⟨⟨"a", "oldpw", true, [("host", "h")]⟩,
        redact ⟨"a", "oldpw", true, [("host", "h")]⟩, true, some 5⟩)], true⟩
      (fun _ => none) ⟨"a", "newpw"⟩ []).result = CPRes.fromEdit EditRes.typeError ∧
    ({ redact ⟨"a", "oldpw", true, [("host", "h")]⟩ with password := "newpw" } : Config) =
      ⟨"a", "newpw", true, [("host", "h")]⟩ ∧
    (redact { redact ⟨"a", "oldpw", true, [("host", "h")]⟩ with
        password := "newpw" }).password ≠ "newpw" :=
  ⟨rfl, rfl, by decide⟩

/-- C10, confirmed.  A `_create` task that succeeds clears the store-wide
`keep_connecting` flag; consequently any later `_create` invocation against
that store — whatever its own outcome script would have been — makes zero
`create_session` attempts (its retry loop runs no iterations; the run falls
straight through to the unbound-session `NameError`), so a later creation
whose first attempt would fail is never attempted or retried. -/
theorem c10_flag (st : StoreState) (n1 : String) (c1 : Config) (cb1 : Bool) (ld1 : Nat)
    (s : Nat) (rest : List SAttempt) (n2 : String) (c2 : Config) (cb2 : Bool) (ld2 : Nat)
    (script : List SAttempt) (h : st.keep_connecting = true) :
    (storeCreate st n1 c1 cb1 ld1 (SAttempt.ok s :: rest)).st.keep_connecting = false ∧
    (storeCreate (storeCreate st n1 c1 cb1 ld1 (SAttempt.ok s :: rest)).st
        n2 c2 cb2 ld2 script).consumed = 0 ∧
    (storeCreate (storeCreate st n1 c1 cb1 ld1 (SAttempt.ok s :: rest)).st
        n2 c2 cb2 ld2 script).result = CreateRes.nameError := by
  have hfirst :
      (storeCreate st n1 c1 cb1 ld1 (SAttempt.ok s :: rest)).st.keep_connecting = false := by
    simp only [storeCreate]
    rw [h]
    rw [show createLoop n1 (redact c1) true none [] 0 0 (SAttempt.ok s :: rest) =
          createLoop n1 (redact c1) false (some s) [] 0 1 rest from rfl]
    rw [createLoop_stop]
    simp
  have hsecond : ∀ (n : String) (c : Config) (cb : Bool) (ld : Nat)
      (sc : List SAttempt) (st2 : StoreState), st2.keep_connecting = false →
      (storeCreate st2 n c cb ld sc).consumed = 0 ∧
      (storeCreate st2 n c cb ld sc).result = CreateRes.nameError := by
    intro n c cb ld sc st2 h2
    simp only [storeCreate]
    rw [h2, createLoop_stop]
    simp
  obtain ⟨hcon, hres⟩ :=
    hsecond n2 c2 cb2 ld2 script (storeCreate st n1 c1 cb1 ld1 (SAttempt.ok s :: rest)).st
      hfirst
  exact ⟨hfirst, hcon, hres⟩

/-- C10, witness: one successful creation, then a second creation whose
script would fail. -/
theorem c10_flag_witness :
    (storeCreate ⟨[], true⟩ "a" cfgA false 0 [SAttempt.ok 5]).st.keep_connecting = false ∧
    (storeCreate (storeCreate ⟨[], true⟩ "a" cfgA false 0 [SAttempt.ok 5]).st
        "b" ⟨"b", "pw", true, []⟩ false 0 [SAttempt.exc 9]).consumed = 0 ∧
    (storeCreate (storeCreate ⟨[], true⟩ "a" cfgA false 0 [SAttempt.ok 5]).st
        "b" ⟨"b", "pw", true, []⟩ false 0 [SAttempt.exc 9]).result = CreateRes.nameError :=
  c10_flag ⟨[], true⟩ "a" cfgA false 0 5 [] "b" ⟨"b", "pw", true, []⟩ false 0
    [SAttempt.exc 9] rfl

end Zato
